import Mathlib

/-!
Verification development for the LangGraph-Zep chat backend
(src/backend/app.py).

The backend is a Flask service with two routes and a three-node linear
pipeline (handle_user_message -> search_zep_history -> generate_response).
We give a shallow embedding: the two module-level stores
(conversation_metadata and messages_db) become an explicit LocalState
threaded through the functions; every call to an external collaborator
(the Zep memory service and the LLM) is resolved by an environment
ZepEnv that fixes the outcome of each call, and each function also
returns the list of external calls it issued, so that side-effect-freedom
claims are statements about that trace.  Nondeterministic fresh values
(uuid4 identifiers, timestamps) are supplied by a Gen record.
-/

set_option maxRecDepth 4000

namespace ZepChat

/-- A message of the local transcript store (an entry of messages_db). -/
structure Msg where
  id : String
  role : String
  content : String
  timestamp : String
deriving Repr, DecidableEq

/-- A message as stored by or retrieved from the external Zep service,
and also the shape of the found_history context entries of node 2. -/
structure ZepMsg where
  role_type : String
  content : String
deriving Repr, DecidableEq

/-- The value returned by a successful zep_client.memory.get call. -/
structure ZepConversation where
  messages : List ZepMsg
  context : String
deriving Repr, DecidableEq

/-- One edge of a zep_client.graph.search result; the fact attribute may
be absent (getattr with a default is used at the call site). -/
structure GraphEdge where
  fact : Option String
deriving Repr, DecidableEq

/-- The per-conversation metadata stored in conversation_metadata. -/
structure Binding where
  user_id : String
  session_id : String
  group_name : String
deriving Repr, DecidableEq

/-- The two module-level stores of the backend. -/
structure LocalState where
  conversation_metadata : List (String × Binding)
  messages_db : List (String × List Msg)
deriving Repr, DecidableEq

/-- A message of the prompt handed to the LLM (SystemMessage,
HumanMessage or AIMessage in the source). -/
inductive PromptMsg where
  | system (content : String)
  | human (content : String)
  | ai (content : String)
deriving Repr, DecidableEq

/-- A record of one call issued to an external collaborator. -/
inductive ExtCall where
  | userAdd (user_id : String)
  | addSession (user_id : String) (session_id : String)
  | groupAdd (group_id : String)
  | memoryAdd (session_id : String) (role : String) (content : String)
  | memoryGet (session_id : String)
  | graphAdd (group_id : String) (data : String)
  | graphSearch (group_id : String) (query : String)
  | llmInvoke (prompt : List PromptMsg)
deriving Repr, DecidableEq

/-- Outcomes of the external collaborators: each field fixes what the
corresponding client call returns (ok) or raises (error, with the raw
error text). -/
structure ZepEnv where
  userAdd : String → Except String Unit
  addSession : String → String → Except String Unit
  groupAdd : String → Except String Unit
  memoryAdd : String → List ZepMsg → Except String Bool
  memoryGet : String → Except String (Option ZepConversation)
  graphAdd : String → String → String → Except String Unit
  graphSearch : String → String → String → Except String (Option (List GraphEdge))
  llmInvoke : List PromptMsg → Except String String

/-- Fresh values produced during one request: the uuid4 conversation id,
the uuid4 message ids and the datetime timestamps. -/
structure Gen where
  freshConversationId : String
  userMessageId : String
  userTimestamp : String
  aiMessageId : String
  aiTimestamp : String
deriving Repr, DecidableEq

/-- The JSON body of a POST to the chat route; absent keys are none. -/
structure ChatRequest where
  userId : Option String
  conversationId : Option String
  groupName : Option String
  message : Option String
deriving Repr, DecidableEq

/-- The fields node 1 hands to the following nodes. -/
structure Stage1Out where
  userId : String
  conversationId : String
  groupName : String
  messages : List Msg
deriving Repr, DecidableEq

/-- The state after node 2: the node-1 fields plus found_history. -/
structure Stage2Out where
  base : Stage1Out
  found_history : List ZepMsg
deriving Repr, DecidableEq

/-- The terminal result of node 3 and body of a 200 chat response. -/
structure ChatResult where
  conversationId : String
  message : Msg
deriving Repr, DecidableEq

/-- The HTTP response of the chat route. -/
structure ChatHttpResponse where
  status : Nat
  result : Option ChatResult
  error : Option String
deriving Repr, DecidableEq

/-- Lookup in an association list, first match wins (dict read). -/
def alookup {α : Type} : List (String × α) → String → Option α
  | [], _ => none
  | (k, v) :: rest, k' => if k = k' then some v else alookup rest k'

/-- Insert into an association list by shadowing (dict assignment:
observationally, the key now maps to the new value). -/
def ainsert {α : Type} (l : List (String × α)) (k : String) (v : α) :
    List (String × α) :=
  (k, v) :: l

/-- Python str.lower, written over the character list so that it
evaluates by structural recursion. -/
def pyLower (s : String) : String :=
  ⟨s.data.map Char.toLower⟩

/-- Python str.strip, written over the character list. -/
def pyStrip (s : String) : String :=
  ⟨((s.data.dropWhile Char.isWhitespace).reverse.dropWhile Char.isWhitespace).reverse⟩

/-- Whether the first character list is a prefix of the second. -/
def charsStart : List Char → List Char → Bool
  | [], _ => true
  | _ :: _, [] => false
  | a :: as, b :: bs => a == b && charsStart as bs

/-- Whether the first character list occurs contiguously in the second. -/
def charsContain (pat : List Char) : List Char → Bool
  | [] => pat.isEmpty
  | c :: t => charsStart pat (c :: t) || charsContain pat t

/-- Python str.startswith, written over the character lists. -/
def pyStartsWith (p s : String) : Bool :=
  charsStart p.data s.data

/-- Python substring containment, s contains pat. -/
def strContains (s pat : String) : Bool :=
  charsContain pat.data s.data

/-- The benign-duplicate test of the source: lowercase the error text
and look for the given marker substring. -/
def benign (e pat : String) : Bool :=
  strContains (pyLower e) pat

/-- Python value-or-default where the empty string counts as falsy, as
in state.get(key) or default. -/
def pyOr (v : Option String) (d : String) : String :=
  match v with
  | none => d
  | some s => if s = "" then d else s

/-- ensure_zep_group: if a group name is given, call group.add; any
outcome is only logged (a failure whose text contains "already exists"
is logged as benign), so the function has no effect beyond the call. -/
def ensure_zep_group (env : ZepEnv) (group_name : String) : List ExtCall :=
  if group_name = "" then []
  else
    match env.groupAdd group_name with
    | Except.ok _ => [ExtCall.groupAdd group_name]
    | Except.error e =>
      if benign e "already exists" then [ExtCall.groupAdd group_name]
      else [ExtCall.groupAdd group_name]

/-- The user.add call counts as succeeded when it returns, or when it
fails with an error whose lowered text contains "user already exists". -/
def user_create_ok (env : ZepEnv) (user_id : String) : Bool :=
  match env.userAdd user_id with
  | Except.ok _ => true
  | Except.error e => benign e "user already exists"

/-- The memory.add_session call counts as succeeded when it returns, or
when it fails with an error whose lowered text contains
"session already exists". -/
def session_create_ok (env : ZepEnv) (user_id conversation_id : String) : Bool :=
  match env.addSession user_id conversation_id with
  | Except.ok _ => true
  | Except.error e => benign e "session already exists"

/-- ensure_zep_user_and_session: create the user (abandon on a
non-benign failure), then the session (abandon on a non-benign
failure), then store the metadata record locally with an empty
group name. -/
def ensure_zep_user_and_session (env : ZepEnv) (user_id conversation_id : String)
    (st : LocalState) : LocalState × List ExtCall :=
  if user_create_ok env user_id then
    if session_create_ok env user_id conversation_id then
      ({ st with conversation_metadata := ainsert st.conversation_metadata conversation_id (Binding.mk user_id conversation_id "") },
       [ExtCall.userAdd user_id, ExtCall.addSession user_id conversation_id])
    else
      (st, [ExtCall.userAdd user_id, ExtCall.addSession user_id conversation_id])
  else
    (st, [ExtCall.userAdd user_id])

/-- store_message_in_zep: mirror one local message to the bound Zep
session; when no metadata exists for the conversation, log and return
without calling the service; any call outcome is only logged. -/
def store_message_in_zep (env : ZepEnv) (message : Msg) (conversation_id : String)
    (st : LocalState) : LocalState × List ExtCall :=
  match alookup st.conversation_metadata conversation_id with
  | none => (st, [])
  | some sd =>
    match env.memoryAdd sd.session_id [⟨message.role, message.content⟩] with
    | Except.ok _ =>
        (st, [ExtCall.memoryAdd sd.session_id message.role message.content])
    | Except.error _ =>
        (st, [ExtCall.memoryAdd sd.session_id message.role message.content])

/-- The group-name update of node 1: if the conversation already has a
metadata record, rewrite its group_name field; otherwise do nothing. -/
def set_group (l : List (String × Binding)) (k : String) (g : String) :
    List (String × Binding) :=
  match alookup l k with
  | none => l
  | some b => ainsert l k { b with group_name := g }

/-- The body of node 1 after input validation, on the already resolved
userId, conversationId, groupName and message. -/
def handle_core (env : ZepEnv) (gen : Gen)
    (user_id conversation_id group_name user_message : String)
    (st : LocalState) : Except String Stage1Out × LocalState × List ExtCall :=
  let e1 := ensure_zep_user_and_session env user_id conversation_id st
  let st2 : LocalState :=
    if group_name = "" then e1.1
    else { e1.1 with conversation_metadata :=
             set_group e1.1.conversation_metadata conversation_id group_name }
  let t2 : List ExtCall :=
    if group_name = "" then e1.2 else e1.2 ++ ensure_zep_group env group_name
  let user_msg : Msg :=
    ⟨gen.userMessageId, "user", user_message, gen.userTimestamp⟩
  let msgs := (alookup st2.messages_db conversation_id).getD [] ++ [user_msg]
  let st3 : LocalState :=
    { st2 with messages_db := ainsert st2.messages_db conversation_id msgs }
  let s4 := store_message_in_zep env user_msg conversation_id st3
  let t5 : List ExtCall :=
    if group_name = "" then []
    else
      match env.graphAdd group_name "text" user_message with
      | Except.ok _ => [ExtCall.graphAdd group_name user_message]
      | Except.error _ => [ExtCall.graphAdd group_name user_message]
  (Except.ok ⟨user_id, conversation_id, group_name, msgs⟩,
   s4.1, t2 ++ s4.2 ++ t5)

/-- Node 1, handle_user_message: resolve the request fields (for
userId, conversationId and groupName an empty string is falsy and the
default applies; a missing conversationId gets a fresh uuid), raise
ValueError when the message is empty or missing, otherwise run the
ingest body. -/
def handle_user_message (env : ZepEnv) (gen : Gen) (req : ChatRequest)
    (st : LocalState) : Except String Stage1Out × LocalState × List ExtCall :=
  let user_message := req.message.getD ""
  if user_message = "" then (Except.error "Message is required", st, [])
  else
    handle_core env gen (pyOr req.userId "")
      (pyOr req.conversationId gen.freshConversationId)
      (pyOr req.groupName "") user_message st

/-- The external history retrieved by node 2: the session messages
converted to plain role_type/content entries; any failure, a falsy
conversation object or a falsy message list yields no entries. -/
def zep_history (env : ZepEnv) (session_id : String) : List ZepMsg :=
  match env.memoryGet session_id with
  | Except.ok (some conv) => conv.messages.map (fun m => ⟨m.role_type, m.content⟩)
  | Except.ok none => []
  | Except.error _ => []

/-- The content of the most recent user-authored local message, or the
empty string when none exists. -/
def last_user_content (msgs : List Msg) : String :=
  match msgs.reverse.find? (fun m => m.role == "user") with
  | none => ""
  | some m => m.content

/-- The derived-fact entries of node 2: when the stripped query and the
group name are both non-empty, search the group graph; every returned
edge becomes a synthetic assistant entry whose content carries the
Group Fact marker; any failure or falsy result yields no entries. -/
def group_facts (env : ZepEnv) (group_name query : String) : List ZepMsg :=
  if pyStrip query != "" && group_name != "" then
    match env.graphSearch group_name query "edges" with
    | Except.ok (some edges) =>
        if edges.isEmpty then []
        else edges.map (fun e =>
          ⟨"assistant", "Group Fact: " ++ e.fact.getD "Unknown group fact"⟩)
    | Except.ok none => []
    | Except.error _ => []
  else []

/-- The trace of node 2 for a bound conversation: the memory.get call,
then the graph.search call when it is attempted. -/
def search_trace (sd : Binding) (group_name query : String) :
    List ExtCall :=
  ExtCall.memoryGet sd.session_id ::
    (if pyStrip query != "" && group_name != "" then
      [ExtCall.graphSearch group_name query]
    else [])

/-- Node 2, search_zep_history: raise when no conversationId is in the
state; return empty context when the conversation has no metadata;
otherwise the external history entries first, then the derived facts. -/
def search_zep_history (env : ZepEnv) (s1 : Stage1Out) (st : LocalState) :
    Except String Stage2Out × List ExtCall :=
  if s1.conversationId = "" then
    (Except.error "No conversationId found in state", [])
  else
    match alookup st.conversation_metadata s1.conversationId with
    | none => (Except.ok ⟨s1, []⟩, [])
    | some sd =>
      let query := last_user_content s1.messages
      (Except.ok ⟨s1, zep_history env sd.session_id
                        ++ group_facts env s1.groupName query⟩,
       search_trace sd s1.groupName query)

/-- Role translation of the prompt builder: a user turn becomes a human
message, everything else an AI message. -/
def role_to_prompt (role content : String) : PromptMsg :=
  if role = "user" then PromptMsg.human content else PromptMsg.ai content

/-- Whether a prompt message is an AIMessage. -/
def isAI : PromptMsg → Bool
  | PromptMsg.ai _ => true
  | _ => false

/-- The content of a prompt message. -/
def promptContent : PromptMsg → String
  | PromptMsg.system c => c
  | PromptMsg.human c => c
  | PromptMsg.ai c => c

/-- The prompt built by node 3: convert the found_history entries to
human/AI messages, join the contents of the AI ones into facts_text,
emit one leading system message when the stripped facts_text is
non-empty, then every local message translated in order. -/
def build_prompt (found_history : List ZepMsg) (local_messages : List Msg) :
    List PromptMsg :=
  let found_history_msgs :=
    found_history.map (fun m => role_to_prompt m.role_type m.content)
  let facts_text :=
    String.intercalate "\n" ((found_history_msgs.filter isAI).map promptContent)
  (if pyStrip facts_text != "" then
    [PromptMsg.system ("Relevant facts:\n" ++ facts_text)]
  else []) ++ local_messages.map (fun m => role_to_prompt m.role m.content)

/-- Node 3, generate_response: build the prompt, invoke the LLM (an
error propagates), append the assistant message to the local
transcript, mirror it best-effort to Zep, return the terminal result. -/
def generate_response (env : ZepEnv) (gen : Gen) (s2 : Stage2Out)
    (st : LocalState) : Except String ChatResult × LocalState × List ExtCall :=
  let conversation_id := s2.base.conversationId
  let prompt := build_prompt s2.found_history s2.base.messages
  match env.llmInvoke prompt with
  | Except.error e => (Except.error e, st, [ExtCall.llmInvoke prompt])
  | Except.ok content =>
    let ai_msg : Msg := ⟨gen.aiMessageId, "assistant", content, gen.aiTimestamp⟩
    let local_messages := s2.base.messages ++ [ai_msg]
    let st1 : LocalState :=
      { st with messages_db := ainsert st.messages_db conversation_id local_messages }
    let s2' := store_message_in_zep env ai_msg conversation_id st1
    (Except.ok ⟨conversation_id, ai_msg⟩, s2'.1,
     ExtCall.llmInvoke prompt :: s2'.2)

/-- The compiled three-node graph run on one request: the nodes in
sequence, with an error of any node ending the run (mutations already
made by earlier nodes persist, as the stores are module-level). -/
def run_pipeline (env : ZepEnv) (gen : Gen) (req : ChatRequest)
    (st : LocalState) : Except String ChatResult × LocalState × List ExtCall :=
  match handle_user_message env gen req st with
  | (Except.error e, st1, t1) => (Except.error e, st1, t1)
  | (Except.ok s1, st1, t1) =>
    match search_zep_history env s1 st1 with
    | (Except.error e, t2) => (Except.error e, st1, t1 ++ t2)
    | (Except.ok s2, t2) =>
      match generate_response env gen s2 st1 with
      | (r, st2, t3) => (r, st2, t1 ++ t2 ++ t3)

/-- The chat route: normalize the groupName key, run the graph, answer
200 with the result or 500 with the raw error text of any exception. -/
def chat (env : ZepEnv) (gen : Gen) (payload : ChatRequest) (st : LocalState) :
    ChatHttpResponse × LocalState × List ExtCall :=
  let payload' : ChatRequest := { payload with groupName := some (payload.groupName.getD "") }
  match run_pipeline env gen payload' st with
  | (Except.ok r, st', tr) => (⟨200, some r, none⟩, st', tr)
  | (Except.error e, st', tr) => (⟨500, none, some e⟩, st', tr)

/-- The body of a response of the conversation read route. -/
inductive GetResponse where
  | okExternal (conversationId : String) (messages : List ZepMsg) (context : String)
  | okLocal (conversationId : String) (messages : List Msg)
  | notFound
  | serverError (e : String)
deriving Repr, DecidableEq

/-- The HTTP status paired with each read-route response. -/
def GetResponse.status : GetResponse → Nat
  | GetResponse.okExternal _ _ _ => 200
  | GetResponse.okLocal _ _ => 200
  | GetResponse.notFound => 404
  | GetResponse.serverError _ => 500

/-- The local half of the read route: answer from messages_db, or 404
when the conversation is unknown there. -/
def local_fallback (conversation_id : String) (st : LocalState) : GetResponse :=
  match alookup st.messages_db conversation_id with
  | some ms => GetResponse.okLocal conversation_id ms
  | none => GetResponse.notFound

/-- The conversation read route: when metadata exists, call memory.get;
a raised error reaches the catch-all handler and answers 500; a truthy
conversation answers 200 with the external messages and context; a
falsy one falls through to the local store, as does a conversation
without metadata. -/
def get_conversation_route (env : ZepEnv) (conversation_id : String)
    (st : LocalState) : GetResponse × List ExtCall :=
  match alookup st.conversation_metadata conversation_id with
  | some sd =>
    (match env.memoryGet sd.session_id with
     | Except.error e => (GetResponse.serverError e, [ExtCall.memoryGet sd.session_id])
     | Except.ok (some conv) =>
         (GetResponse.okExternal conversation_id conv.messages conv.context,
          [ExtCall.memoryGet sd.session_id])
     | Except.ok none =>
         (local_fallback conversation_id st, [ExtCall.memoryGet sd.session_id]))
  | none => (local_fallback conversation_id st, [])

/-! Concrete environments, generators and states used by the witnesses
and counterexamples below. -/

/-- An environment in which every external call succeeds, the Zep store
returns nothing, and the LLM always answers with the text reply. -/
def envOk : ZepEnv :=
  ⟨fun _ => Except.ok (), fun _ _ => Except.ok (), fun _ => Except.ok (),
   fun _ _ => Except.ok true, fun _ => Except.ok none,
   fun _ _ _ => Except.ok (), fun _ _ _ => Except.ok none,
   fun _ => Except.ok "reply"⟩

/-- Like envOk, but user creation fails with an error text that does
contain already exists yet not user already exists. -/
def envEntityExists : ZepEnv :=
  { envOk with userAdd := fun _ => Except.error "Entity already exists" }

/-- Like envOk, but user creation fails with an unrelated error. -/
def envUserDown : ZepEnv :=
  { envOk with userAdd := fun _ => Except.error "connection refused" }

/-- Like envOk, but memory.get raises. -/
def envGetDown : ZepEnv :=
  { envOk with memoryGet := fun _ => Except.error "zep down" }

/-- Like envOk, but memory.get returns one plain assistant history
entry (and no derived facts exist anywhere). -/
def envHist : ZepEnv :=
  { envOk with memoryGet := fun _ => Except.ok (some ⟨[⟨"assistant", "hello"⟩], ""⟩) }

/-- Like envOk, but user and session creation both fail with the
benign duplicate error texts the source recognizes. -/
def envBenignDup : ZepEnv :=
  { envOk with
    userAdd := fun _ => Except.error "User already exists",
    addSession := fun _ _ => Except.error "Session already exists" }

/-- Fresh values for a first request. -/
def gen0 : Gen := ⟨"fresh-cid", "um-0", "ts-0", "am-0", "ts-1"⟩

/-- Fresh values for a second request. -/
def gen1 : Gen := ⟨"fresh-cid-1", "um-1", "ts-2", "am-1", "ts-3"⟩

/-- The stores at process start. -/
def emptyState : LocalState := ⟨[], []⟩

/-- The one-directional binding invariant: every conversation that has
a metadata record also has a non-empty local transcript. -/
def bindingInv (st : LocalState) : Prop :=
  ∀ k, (alookup st.conversation_metadata k).isSome = true →
    ∃ ms, alookup st.messages_db k = some ms ∧ ms ≠ []

/-- The prompt of the first LLM invocation recorded in a trace. -/
def prompt_sent (tr : List ExtCall) : Option (List PromptMsg) :=
  tr.findSome? fun c =>
    match c with
    | ExtCall.llmInvoke p => some p
    | _ => none

/-- Whether a context entry is a derived fact, recognizable by the
Group Fact marker its content carries. -/
def isDerivedFact (m : ZepMsg) : Bool :=
  pyStartsWith "Group Fact: " m.content

/-- The prompt builder as the claim words it: one system message
concatenating the text of the derived-fact entries, present exactly
when derived-fact entries exist, then the translated local messages.
Stated for comparison with build_prompt, which follows the source. -/
def build_prompt_claim (found_history : List ZepMsg) (local_messages : List Msg) :
    List PromptMsg :=
  let facts := found_history.filter isDerivedFact
  (if facts.isEmpty then []
   else [PromptMsg.system
     ("Relevant facts:\n" ++ String.intercalate "\n" (facts.map (fun m => m.content)))])
    ++ local_messages.map (fun m => role_to_prompt m.role m.content)

/-! Library of small lemmas about the stores and the pipeline nodes. -/

theorem alookup_ainsert_self {α : Type} (l : List (String × α)) (k : String) (v : α) :
    alookup (ainsert l k v) k = some v := by
  simp [alookup, ainsert]

theorem alookup_ainsert_ne {α : Type} (l : List (String × α)) (k k' : String) (v : α)
    (h : k ≠ k') : alookup (ainsert l k v) k' = alookup l k' := by
  simp [alookup, ainsert, h]

theorem store_message_in_zep_fst (env : ZepEnv) (m : Msg) (cid : String)
    (st : LocalState) : (store_message_in_zep env m cid st).1 = st := by
  unfold store_message_in_zep
  split
  · rfl
  · split <;> rfl

theorem ensure_fst_messages (env : ZepEnv) (u c : String) (st : LocalState) :
    ((ensure_zep_user_and_session env u c st).1).messages_db = st.messages_db := by
  unfold ensure_zep_user_and_session
  split
  · split <;> rfl
  · rfl

theorem ensure_fst_metadata (env : ZepEnv) (u c : String) (st : LocalState) :
    ((ensure_zep_user_and_session env u c st).1).conversation_metadata =
      (if user_create_ok env u && session_create_ok env u c then
        ainsert st.conversation_metadata c ⟨u, c, ""⟩
      else st.conversation_metadata) := by
  unfold ensure_zep_user_and_session
  by_cases h1 : user_create_ok env u <;> by_cases h2 : session_create_ok env u c <;>
    simp [h1, h2]

theorem ensure_lookup_ne (env : ZepEnv) (u c : String) (st : LocalState) (k : String)
    (hk : c ≠ k) :
    alookup ((ensure_zep_user_and_session env u c st).1).conversation_metadata k =
      alookup st.conversation_metadata k := by
  rw [ensure_fst_metadata]
  split
  · exact alookup_ainsert_ne _ _ _ _ hk
  · rfl

theorem ensure_lookup_self (env : ZepEnv) (u c : String) (st : LocalState)
    (h : (user_create_ok env u && session_create_ok env u c) = true) :
    alookup ((ensure_zep_user_and_session env u c st).1).conversation_metadata c =
      some ⟨u, c, ""⟩ := by
  rw [ensure_fst_metadata, if_pos h, alookup_ainsert_self]

theorem set_group_lookup_ne (l : List (String × Binding)) (k g k' : String)
    (hk : k ≠ k') : alookup (set_group l k g) k' = alookup l k' := by
  unfold set_group
  split
  · rfl
  · exact alookup_ainsert_ne _ _ _ _ hk

theorem set_group_lookup_self (l : List (String × Binding)) (k g : String) :
    alookup (set_group l k g) k =
      (alookup l k).map (fun b => { b with group_name := g }) := by
  unfold set_group
  cases h : alookup l k <;> simp [h, alookup_ainsert_self]

theorem handle_core_fst (env : ZepEnv) (gen : Gen) (u c g m : String)
    (st : LocalState) :
    (handle_core env gen u c g m st).1 =
      Except.ok ⟨u, c, g, (alookup st.messages_db c).getD []
        ++ [⟨gen.userMessageId, "user", m, gen.userTimestamp⟩]⟩ := by
  unfold handle_core
  by_cases hg : g = "" <;> simp [hg, ensure_fst_messages]

theorem handle_core_state (env : ZepEnv) (gen : Gen) (u c g m : String)
    (st : LocalState) :
    (handle_core env gen u c g m st).2.1 =
      { conversation_metadata :=
          (if g = "" then
            ((ensure_zep_user_and_session env u c st).1).conversation_metadata
          else
            set_group ((ensure_zep_user_and_session env u c st).1).conversation_metadata c g),
        messages_db := ainsert st.messages_db c
          ((alookup st.messages_db c).getD []
            ++ [⟨gen.userMessageId, "user", m, gen.userTimestamp⟩]) } := by
  unfold handle_core
  by_cases hg : g = "" <;> simp [hg, store_message_in_zep_fst, ensure_fst_messages]

theorem pyOr_ne_empty (v : Option String) (d : String) (hd : d ≠ "") :
    pyOr v d ≠ "" := by
  unfold pyOr
  cases v with
  | none => exact hd
  | some s =>
    by_cases hs : s = "" <;> simp [hs, hd]

theorem handle_user_message_eq (env : ZepEnv) (gen : Gen) (req : ChatRequest)
    (st : LocalState) (hm : req.message.getD "" ≠ "") :
    handle_user_message env gen req st =
      handle_core env gen (pyOr req.userId "")
        (pyOr req.conversationId gen.freshConversationId)
        (pyOr req.groupName "") (req.message.getD "") st := by
  unfold handle_user_message
  simp [hm]

theorem generate_metadata (env : ZepEnv) (gen : Gen) (s2 : Stage2Out)
    (st : LocalState) :
    ((generate_response env gen s2 st).2.1).conversation_metadata =
      st.conversation_metadata := by
  unfold generate_response
  cases h : env.llmInvoke (build_prompt s2.found_history s2.base.messages) <;>
    simp [h, store_message_in_zep_fst]

theorem generate_ok_fst (env : ZepEnv) (gen : Gen) (s2 : Stage2Out) (st : LocalState)
    (c : String)
    (h : env.llmInvoke (build_prompt s2.found_history s2.base.messages) = Except.ok c) :
    (generate_response env gen s2 st).1 =
      Except.ok ⟨s2.base.conversationId,
        ⟨gen.aiMessageId, "assistant", c, gen.aiTimestamp⟩⟩ := by
  simp [generate_response, h]

theorem generate_ok_state (env : ZepEnv) (gen : Gen) (s2 : Stage2Out) (st : LocalState)
    (c : String)
    (h : env.llmInvoke (build_prompt s2.found_history s2.base.messages) = Except.ok c) :
    (generate_response env gen s2 st).2.1 =
      { st with messages_db := ainsert st.messages_db s2.base.conversationId (s2.base.messages ++ [⟨gen.aiMessageId, "assistant", c, gen.aiTimestamp⟩]) } := by
  simp [generate_response, h, store_message_in_zep_fst]

theorem generate_err (env : ZepEnv) (gen : Gen) (s2 : Stage2Out) (st : LocalState)
    (e : String)
    (h : env.llmInvoke (build_prompt s2.found_history s2.base.messages) = Except.error e) :
    generate_response env gen s2 st =
      (Except.error e, st,
       [ExtCall.llmInvoke (build_prompt s2.found_history s2.base.messages)]) := by
  simp [generate_response, h]

theorem search_ok (env : ZepEnv) (s1 : Stage1Out) (st : LocalState)
    (hc : s1.conversationId ≠ "") :
    ∃ fh tr, search_zep_history env s1 st = (Except.ok ⟨s1, fh⟩, tr) := by
  unfold search_zep_history
  rw [if_neg hc]
  cases h : alookup st.conversation_metadata s1.conversationId <;> simp

theorem run_pipeline_empty (env : ZepEnv) (gen : Gen) (req : ChatRequest)
    (st : LocalState) (hm : req.message.getD "" = "") :
    run_pipeline env gen req st = (Except.error "Message is required", st, []) := by
  unfold run_pipeline handle_user_message
  simp [hm]

theorem handle_err_inv (env : ZepEnv) (gen : Gen) (req : ChatRequest) (st : LocalState)
    (e : String) (st1 : LocalState) (t1 : List ExtCall)
    (heq : handle_user_message env gen req st = (Except.error e, st1, t1)) :
    req.message.getD "" = "" ∧ st1 = st ∧ e = "Message is required" ∧ t1 = [] := by
  by_cases hm : req.message.getD "" = ""
  · unfold handle_user_message at heq
    simp [hm] at heq
    refine ⟨hm, ?_, ?_, ?_⟩ <;> simp_all
  · rw [handle_user_message_eq env gen req st hm] at heq
    have h1 := congrArg (fun p => p.1) heq
    simp only [handle_core_fst] at h1
    cases h1

theorem handle_ok_inv (env : ZepEnv) (gen : Gen) (req : ChatRequest) (st : LocalState)
    (s1 : Stage1Out) (st1 : LocalState) (t1 : List ExtCall)
    (heq : handle_user_message env gen req st = (Except.ok s1, st1, t1)) :
    s1 = ⟨pyOr req.userId "", pyOr req.conversationId gen.freshConversationId,
          pyOr req.groupName "",
          (alookup st.messages_db (pyOr req.conversationId gen.freshConversationId)).getD []
            ++ [⟨gen.userMessageId, "user", req.message.getD "", gen.userTimestamp⟩]⟩ ∧
    st1 = (handle_core env gen (pyOr req.userId "")
            (pyOr req.conversationId gen.freshConversationId)
            (pyOr req.groupName "") (req.message.getD "") st).2.1 := by
  by_cases hm : req.message.getD "" = ""
  · unfold handle_user_message at heq
    simp [hm] at heq
  · rw [handle_user_message_eq env gen req st hm] at heq
    constructor
    · have h1 := congrArg (fun p => p.1) heq
      simp only [handle_core_fst] at h1
      exact (Except.ok.inj h1).symm
    · exact (congrArg (fun p => p.2.1) heq).symm

theorem search_err_inv (env : ZepEnv) (s1 : Stage1Out) (st : LocalState)
    (e : String) (tr : List ExtCall)
    (heq : search_zep_history env s1 st = (Except.error e, tr)) :
    s1.conversationId = "" := by
  by_cases hc : s1.conversationId = ""
  · exact hc
  · obtain ⟨fh, tr', h⟩ := search_ok env s1 st hc
    rw [h] at heq
    have h1 := congrArg (fun p => p.1) heq
    simp at h1

theorem search_ok_inv (env : ZepEnv) (s1 : Stage1Out) (st : LocalState)
    (s2 : Stage2Out) (tr : List ExtCall)
    (heq : search_zep_history env s1 st = (Except.ok s2, tr)) :
    s2.base = s1 := by
  unfold search_zep_history at heq
  by_cases hc : s1.conversationId = ""
  · simp [hc] at heq
  · rw [if_neg hc] at heq
    cases h : alookup st.conversation_metadata s1.conversationId <;> rw [h] at heq <;>
      simp at heq
    · exact congrArg Stage2Out.base heq.1.symm
    · exact congrArg Stage2Out.base heq.1.symm

theorem generate_err_inv (env : ZepEnv) (gen : Gen) (s2 : Stage2Out) (st : LocalState)
    (e : String) (st2 : LocalState) (t3 : List ExtCall)
    (heq : generate_response env gen s2 st = (Except.error e, st2, t3)) :
    env.llmInvoke (build_prompt s2.found_history s2.base.messages) = Except.error e ∧
      st2 = st := by
  unfold generate_response at heq
  cases h : env.llmInvoke (build_prompt s2.found_history s2.base.messages) with
  | error e' =>
    simp only [h] at heq
    simp only [Prod.mk.injEq, Except.error.injEq] at heq
    obtain ⟨he, hst, -⟩ := heq
    subst he
    exact ⟨by simp [h], hst.symm⟩
  | ok c =>
    simp only [h] at heq
    simp at heq

theorem generate_ok_inv (env : ZepEnv) (gen : Gen) (s2 : Stage2Out) (st : LocalState)
    (r : ChatResult) (st2 : LocalState) (t3 : List ExtCall)
    (heq : generate_response env gen s2 st = (Except.ok r, st2, t3)) :
    ∃ content,
      env.llmInvoke (build_prompt s2.found_history s2.base.messages) = Except.ok content ∧
      r = ⟨s2.base.conversationId, ⟨gen.aiMessageId, "assistant", content, gen.aiTimestamp⟩⟩ ∧
      st2 = { st with messages_db := ainsert st.messages_db s2.base.conversationId (s2.base.messages ++ [⟨gen.aiMessageId, "assistant", content, gen.aiTimestamp⟩]) } := by
  unfold generate_response at heq
  cases h : env.llmInvoke (build_prompt s2.found_history s2.base.messages) with
  | error e =>
    simp only [h] at heq
    simp at heq
  | ok c =>
    simp only [h, store_message_in_zep_fst] at heq
    simp only [Prod.mk.injEq, Except.ok.injEq] at heq
    obtain ⟨hr, hst, -⟩ := heq
    exact ⟨c, by simp [h], hr.symm, hst.symm⟩

theorem run_pipeline_ok_inv (env : ZepEnv) (gen : Gen) (req : ChatRequest)
    (st : LocalState) (r : ChatResult) (st' : LocalState) (tr : List ExtCall)
    (hrp : run_pipeline env gen req st = (Except.ok r, st', tr)) :
    ∃ s1 st1 t1 s2 t2 t3,
      handle_user_message env gen req st = (Except.ok s1, st1, t1) ∧
      search_zep_history env s1 st1 = (Except.ok s2, t2) ∧
      generate_response env gen s2 st1 = (Except.ok r, st', t3) := by
  unfold run_pipeline at hrp
  split at hrp
  · simp at hrp
  · next s1 st1 t1 heq =>
    split at hrp
    · simp at hrp
    · next s2 t2 heq2 =>
      split at hrp
      next res3 st2 t3 heq3 =>
        simp only [Prod.mk.injEq] at hrp
        obtain ⟨hres, hst, -⟩ := hrp
        exact ⟨s1, st1, t1, s2, t2, t3, heq, heq2, by rw [heq3, hres, hst]⟩

theorem run_pipeline_err_inv (env : ZepEnv) (gen : Gen) (req : ChatRequest)
    (st : LocalState) (e : String) (st' : LocalState) (tr : List ExtCall)
    (hrp : run_pipeline env gen req st = (Except.error e, st', tr)) :
    (∃ t1, handle_user_message env gen req st = (Except.error e, st', t1)) ∨
    (∃ s1 st1 t1 t2, handle_user_message env gen req st = (Except.ok s1, st1, t1) ∧
      search_zep_history env s1 st1 = (Except.error e, t2) ∧ st' = st1) ∨
    (∃ s1 st1 t1 s2 t2 t3, handle_user_message env gen req st = (Except.ok s1, st1, t1) ∧
      search_zep_history env s1 st1 = (Except.ok s2, t2) ∧
      generate_response env gen s2 st1 = (Except.error e, st', t3)) := by
  unfold run_pipeline at hrp
  split at hrp
  · next e1 st1 t1 heq =>
    left
    simp only [Prod.mk.injEq, Except.error.injEq] at hrp
    obtain ⟨he, hst, -⟩ := hrp
    exact ⟨t1, by rw [heq, he, hst]⟩
  · next s1 st1 t1 heq =>
    split at hrp
    · next e2 t2 heq2 =>
      right; left
      simp only [Prod.mk.injEq, Except.error.injEq] at hrp
      obtain ⟨he, hst, -⟩ := hrp
      exact ⟨s1, st1, t1, t2, heq, by rw [heq2, he], hst.symm⟩
    · next s2 t2 heq2 =>
      split at hrp
      next res3 st2 t3 heq3 =>
        right; right
        simp only [Prod.mk.injEq] at hrp
        obtain ⟨hres, hst, -⟩ := hrp
        exact ⟨s1, st1, t1, s2, t2, t3, heq, heq2, by rw [heq3, hres, hst]⟩

theorem handle_core_inv (env : ZepEnv) (gen : Gen) (u c g m : String)
    (st : LocalState) (hinv : bindingInv st) :
    bindingInv ((handle_core env gen u c g m st).2.1) := by
  intro k hk
  rw [handle_core_state] at hk
  dsimp only at hk
  by_cases hkc : c = k
  · subst hkc
    refine ⟨(alookup st.messages_db c).getD []
        ++ [⟨gen.userMessageId, "user", m, gen.userTimestamp⟩], ?_, by simp⟩
    rw [handle_core_state]
    exact alookup_ainsert_self _ _ _
  · have hmeta : alookup (if g = "" then
        ((ensure_zep_user_and_session env u c st).1).conversation_metadata
      else
        set_group ((ensure_zep_user_and_session env u c st).1).conversation_metadata c g) k =
        alookup st.conversation_metadata k := by
      by_cases hg : g = "" <;>
        simp [hg, ensure_lookup_ne env u c st k hkc, set_group_lookup_ne _ c g k hkc]
    rw [hmeta] at hk
    obtain ⟨ms, hms, hne⟩ := hinv k hk
    refine ⟨ms, ?_, hne⟩
    rw [handle_core_state]
    dsimp only
    rw [alookup_ainsert_ne _ _ _ _ hkc]
    exact hms

theorem generate_state_inv (env : ZepEnv) (gen : Gen) (s2 : Stage2Out)
    (st : LocalState) (hinv : bindingInv st) :
    bindingInv ((generate_response env gen s2 st).2.1) := by
  cases h : env.llmInvoke (build_prompt s2.found_history s2.base.messages) with
  | error e =>
    rw [generate_err env gen s2 st e h]
    exact hinv
  | ok c =>
    rw [generate_ok_state env gen s2 st c h]
    intro k hk
    obtain ⟨ms, hms, hne⟩ := hinv k hk
    by_cases hkc : s2.base.conversationId = k
    · subst hkc
      exact ⟨s2.base.messages ++ [⟨gen.aiMessageId, "assistant", c, gen.aiTimestamp⟩],
        alookup_ainsert_self _ _ _, by simp⟩
    · refine ⟨ms, ?_, hne⟩
      show alookup (ainsert st.messages_db s2.base.conversationId _) k = some ms
      rw [alookup_ainsert_ne _ _ _ _ hkc]
      exact hms

/-! Claim C1. -/

/-- C1, counterexample: at the concrete request with no message field,
the response status is 500, not a 4xx status, although the failure is
indeed side-effect free; the claim as stated (returned as 4xx) is
false on the code. -/
theorem c1_counterexample :
    (chat envOk gen0 ⟨none, none, none, none⟩ emptyState).1.status = 500 ∧
    ¬ ((chat envOk gen0 ⟨none, none, none, none⟩ emptyState).1.status < 500) ∧
    (chat envOk gen0 ⟨none, none, none, none⟩ emptyState).1.error =
      some "Message is required" := by
  decide

/-- C1, amended: for every chat request whose message field is missing
or empty, the pipeline fails with the InvalidInput error (text Message
is required) returned as a 500 response, and there are no side
effects: the stores are unchanged and no external call is issued. -/
theorem c1_missing_message_rejected (env : ZepEnv) (gen : Gen) (payload : ChatRequest)
    (st : LocalState) (h : payload.message.getD "" = "") :
    chat env gen payload st = (⟨500, none, some "Message is required"⟩, st, []) := by
  simp only [chat]
  rw [run_pipeline_empty env gen
    { payload with groupName := some (payload.groupName.getD "") } st h]

/-- C1, witness: the amended theorem applied to a request carrying an
empty message over a non-trivial store. -/
theorem c1_witness :
    chat envOk gen1 ⟨some "u", some "c", none, some ""⟩
        ⟨[("c", ⟨"u", "c", ""⟩)], []⟩ =
      (⟨500, none, some "Message is required"⟩, ⟨[("c", ⟨"u", "c", ""⟩)], []⟩, []) :=
  c1_missing_message_rejected envOk gen1 ⟨some "u", some "c", none, some ""⟩
    ⟨[("c", ⟨"u", "c", ""⟩)], []⟩ (by decide)

/-! Claim C10. -/

/-- C10: a call of the message-mirroring helper for a conversation with
no binding returns at once: the store is handed back unchanged and no
external call is issued, so in degraded local-only mode no message is
mirrored. -/
theorem c10_store_skips_unbound (env : ZepEnv) (m : Msg) (cid : String)
    (st : LocalState) (h : alookup st.conversation_metadata cid = none) :
    store_message_in_zep env m cid st = (st, []) := by
  unfold store_message_in_zep
  rw [h]

/-- C10, witness: the helper applied at a concrete unbound conversation. -/
theorem c10_witness :
    store_message_in_zep envOk ⟨"m0", "user", "hi", "t0"⟩ "c" emptyState =
      (emptyState, []) :=
  c10_store_skips_unbound envOk ⟨"m0", "user", "hi", "t0"⟩ "c" emptyState (by decide)

/-! Claim C5. -/

/-- C5, counterexample: a user-creation failure whose text is Entity
already exists does contain the substring already exists, yet binding
creation is abandoned (the store is unchanged and the session call is
never reached), because user creation demands the longer marker user
already exists. -/
theorem c5_counterexample :
    benign "Entity already exists" "already exists" = true ∧
    ensure_zep_user_and_session envEntityExists "u" "c" emptyState =
      (emptyState, [ExtCall.userAdd "u"]) ∧
    alookup (ensure_zep_user_and_session envEntityExists "u" "c" emptyState).1.conversation_metadata "c" = none := by
  decide

/-- C5, amended: the benign-duplicate markers are per call site: user
creation succeeds on failures containing user already exists, session
creation on failures containing session already exists (when both
succeed the binding record is written); a user-creation failure not
matching its marker abandons binding creation, as does a session
failure; group creation never abandons anything, its outcome being
ignored whatever the error text. -/
theorem c5_benign_markers (env : ZepEnv) (u c : String) (st : LocalState) :
    (user_create_ok env u = true → session_create_ok env u c = true →
      alookup ((ensure_zep_user_and_session env u c st).1).conversation_metadata c =
        some ⟨u, c, ""⟩) ∧
    (user_create_ok env u = false →
      ensure_zep_user_and_session env u c st = (st, [ExtCall.userAdd u])) ∧
    (user_create_ok env u = true → session_create_ok env u c = false →
      ensure_zep_user_and_session env u c st =
        (st, [ExtCall.userAdd u, ExtCall.addSession u c])) ∧
    (∀ e, env.userAdd u = Except.error e →
      user_create_ok env u = benign e "user already exists") ∧
    (∀ e, env.addSession u c = Except.error e →
      session_create_ok env u c = benign e "session already exists") ∧
    (∀ g, ensure_zep_group env g = if g = "" then [] else [ExtCall.groupAdd g]) := by
  refine ⟨?_, ?_, ?_, ?_, ?_, ?_⟩
  · intro h1 h2
    exact ensure_lookup_self env u c st (by simp [h1, h2])
  · intro h1
    unfold ensure_zep_user_and_session
    simp [h1]
  · intro h1 h2
    unfold ensure_zep_user_and_session
    simp [h1, h2]
  · intro e he
    unfold user_create_ok
    rw [he]
  · intro e he
    unfold session_create_ok
    rw [he]
  · intro g
    unfold ensure_zep_group
    split
    · simp_all
    · split
      · simp_all
      · split <;> simp_all

/-- C5, witness: with both creation calls failing with the recognized
duplicate texts, the binding record is still written. -/
theorem c5_witness :
    alookup ((ensure_zep_user_and_session envBenignDup "u" "c" emptyState).1).conversation_metadata "c" =
      some ⟨"u", "c", ""⟩ :=
  (c5_benign_markers envBenignDup "u" "c" emptyState).1 (by decide) (by decide)

/-! Claim C3. -/

/-- C3, counterexample: the first request binds conversation c with
group g; the second request with the same conversationId and no
groupName re-creates the binding and resets the recorded group name to
the empty string, so the bind operation does overwrite an
already-recorded group name although the request supplied none. -/
theorem c3_counterexample :
    alookup ((chat envOk gen0 ⟨some "u", some "c", some "g", some "hi"⟩ emptyState).2.1).conversation_metadata "c" =
      some ⟨"u", "c", "g"⟩ ∧
    alookup ((chat envOk gen1 ⟨some "u", some "c", none, some "again"⟩
        (chat envOk gen0 ⟨some "u", some "c", some "g", some "hi"⟩ emptyState).2.1).2.1).conversation_metadata "c" =
      some ⟨"u", "c", ""⟩ := by
  decide

/-- C3, amended: a repeated ingest with the same conversationId leaves
a single binding for that id, but does not reuse the previous one:
whenever user and session creation succeed (or fail benignly), the
binding visible afterwards is freshly rebuilt from the request — its
group name is the groupName of the request, or empty when none is
supplied, whatever group name was recorded before. -/
theorem c3_rebind (env : ZepEnv) (gen : Gen) (req : ChatRequest) (st : LocalState)
    (hm : req.message.getD "" ≠ "")
    (hu : user_create_ok env (pyOr req.userId "") = true)
    (hs : session_create_ok env (pyOr req.userId "")
            (pyOr req.conversationId gen.freshConversationId) = true) :
    alookup ((handle_user_message env gen req st).2.1).conversation_metadata
        (pyOr req.conversationId gen.freshConversationId) =
      some ⟨pyOr req.userId "", pyOr req.conversationId gen.freshConversationId,
            pyOr req.groupName ""⟩ := by
  rw [handle_user_message_eq env gen req st hm, handle_core_state]
  by_cases hg : pyOr req.groupName "" = ""
  · simp [hg, ensure_lookup_self env (pyOr req.userId "")
      (pyOr req.conversationId gen.freshConversationId) st (by simp [hu, hs])]
  · simp [hg, set_group_lookup_self, ensure_lookup_self env (pyOr req.userId "")
      (pyOr req.conversationId gen.freshConversationId) st (by simp [hu, hs])]

/-- C3, witness: the amended theorem applied to a second ingest that
supplies no group name over a store whose binding records group g; the
surviving binding has an empty group name. -/
theorem c3_witness :
    alookup ((handle_user_message envOk gen1 ⟨some "u", some "c", none, some "again"⟩
        ⟨[("c", ⟨"u", "c", "g"⟩)], [("c", [⟨"m0", "user", "hi", "t0"⟩])]⟩).2.1).conversation_metadata "c" =
      some ⟨"u", "c", ""⟩ := by
  have h := c3_rebind envOk gen1 ⟨some "u", some "c", none, some "again"⟩
    ⟨[("c", ⟨"u", "c", "g"⟩)], [("c", [⟨"m0", "user", "hi", "t0"⟩])]⟩
    (by decide) (by decide) (by decide)
  simpa using h

/-! Claim C6. -/

/-- C6, counterexample: a conversation bound in the metadata store and
present in the local store; the external retrieval raises, and the
route answers 500 instead of falling back to the local store as the
claim requires. -/
theorem c6_counterexample :
    (get_conversation_route envGetDown "c"
        ⟨[("c", ⟨"u", "c", ""⟩)], [("c", [⟨"m0", "user", "hi", "t0"⟩])]⟩).1 =
      GetResponse.serverError "zep down" ∧
    (GetResponse.serverError "zep down").status = 500 ∧
    alookup (⟨[("c", ⟨"u", "c", ""⟩)], [("c", [⟨"m0", "user", "hi", "t0"⟩])]⟩ : LocalState).messages_db "c" =
      some [⟨"m0", "user", "hi", "t0"⟩] := by
  decide

/-- C6, amended: with a binding, external retrieval is attempted first
and a retrieved conversation is returned; the local fallback serves
requests with no binding (with no external call) and requests whose
external retrieval returns no conversation — but an external retrieval
error yields a 500 response with no local fallback; NotFound is
reported only when the local store also lacks the conversation. -/
theorem c6_read_route (env : ZepEnv) (cid : String) (st : LocalState) :
    ((get_conversation_route env cid st).1 = GetResponse.notFound →
      alookup st.messages_db cid = none) ∧
    (alookup st.conversation_metadata cid = none →
      get_conversation_route env cid st = (local_fallback cid st, [])) ∧
    (∀ sd, alookup st.conversation_metadata cid = some sd →
      (∀ e, env.memoryGet sd.session_id = Except.error e →
        get_conversation_route env cid st =
          (GetResponse.serverError e, [ExtCall.memoryGet sd.session_id])) ∧
      (env.memoryGet sd.session_id = Except.ok none →
        get_conversation_route env cid st =
          (local_fallback cid st, [ExtCall.memoryGet sd.session_id])) ∧
      (∀ conv, env.memoryGet sd.session_id = Except.ok (some conv) →
        get_conversation_route env cid st =
          (GetResponse.okExternal cid conv.messages conv.context,
           [ExtCall.memoryGet sd.session_id]))) ∧
    (∀ ms, alookup st.messages_db cid = some ms →
      local_fallback cid st = GetResponse.okLocal cid ms) ∧
    (alookup st.messages_db cid = none →
      local_fallback cid st = GetResponse.notFound) := by
  refine ⟨?_, ?_, ?_, ?_, ?_⟩
  · intro h
    cases hmd : alookup st.conversation_metadata cid with
    | none =>
      simp only [get_conversation_route, hmd] at h
      cases hms : alookup st.messages_db cid with
      | none => rfl
      | some ms => simp [local_fallback, hms] at h
    | some sd =>
      cases hg : env.memoryGet sd.session_id with
      | error e => simp [get_conversation_route, hmd, hg] at h
      | ok o =>
        cases o with
        | none =>
          simp only [get_conversation_route, hmd, hg] at h
          cases hms : alookup st.messages_db cid with
          | none => rfl
          | some ms => simp [local_fallback, hms] at h
        | some conv => simp [get_conversation_route, hmd, hg] at h
  · intro h
    simp [get_conversation_route, h]
  · intro sd hsd
    refine ⟨?_, ?_, ?_⟩
    · intro e he
      simp [get_conversation_route, hsd, he]
    · intro he
      simp [get_conversation_route, hsd, he]
    · intro conv he
      simp [get_conversation_route, hsd, he]
  · intro ms h
    simp [local_fallback, h]
  · intro h
    simp [local_fallback, h]

/-- C6, witness: the amended theorem applied to an unbound conversation
with an empty local store; the route performs no external call and
falls back locally. -/
theorem c6_witness :
    get_conversation_route envOk "c" emptyState = (local_fallback "c" emptyState, []) :=
  (c6_read_route envOk "c" emptyState).2.1 (by decide)

/-! Claim C8. -/

theorem charsStart_append (p s : List Char) : charsStart p (p ++ s) = true := by
  induction p with
  | nil => rfl
  | cons a as ih => simp [charsStart, ih]

theorem pyStartsWith_append (p s : String) : pyStartsWith p (p ++ s) = true := by
  show charsStart p.data (p ++ s).data = true
  have h : (p ++ s).data = p.data ++ s.data := rfl
  rw [h]
  exact charsStart_append _ _

/-- C8: the context-retrieval stage of a chat request never fails the
request: with no binding it returns empty context, and with a binding
it returns the external history entries first followed by the derived
facts, each fact being an assistant-role entry whose content carries
the Group Fact marker. -/
theorem c8_context_stage (env : ZepEnv) (s1 : Stage1Out) (st : LocalState)
    (hc : s1.conversationId ≠ "") :
    (alookup st.conversation_metadata s1.conversationId = none →
      search_zep_history env s1 st = (Except.ok ⟨s1, []⟩, [])) ∧
    (∀ sd, alookup st.conversation_metadata s1.conversationId = some sd →
      search_zep_history env s1 st =
        (Except.ok ⟨s1, zep_history env sd.session_id
            ++ group_facts env s1.groupName (last_user_content s1.messages)⟩,
         search_trace sd s1.groupName (last_user_content s1.messages))) ∧
    (∀ g q, (group_facts env g q).all
        (fun e => e.role_type == "assistant" && isDerivedFact e) = true) := by
  refine ⟨?_, ?_, ?_⟩
  · intro h
    simp [search_zep_history, hc, h]
  · intro sd h
    simp [search_zep_history, hc, h]
  · intro g q
    unfold group_facts
    split
    · split
      · split
        · rfl
        · simp only [List.all_eq_true]
          intro e he
          simp only [List.mem_map] at he
          obtain ⟨ed, -, rfl⟩ := he
          simp [isDerivedFact, pyStartsWith_append]
      · rfl
      · rfl
    · rfl

/-! Claim C7. -/

theorem prompt_facts_sources (fh : List ZepMsg) :
    ((fh.map (fun m => role_to_prompt m.role_type m.content)).filter isAI).map promptContent =
      (fh.filter (fun m => m.role_type != "user")).map (fun m => m.content) := by
  induction fh with
  | nil => rfl
  | cons m t ih =>
    by_cases h : m.role_type = "user" <;>
      simp_all [role_to_prompt, isAI, promptContent]

/-- C7, counterexample: a request whose retrieved context is one plain
assistant history entry and no derived facts; the prompt sent to the
LLM carries a system message quoting that entry, while the prompt the
claim prescribes for a context without derived-fact entries has no
system message. -/
theorem c7_counterexample :
    prompt_sent ((chat envHist gen0 ⟨some "u", some "c", none, some "hi"⟩ emptyState).2.2) =
      some [PromptMsg.system "Relevant facts:\nhello", PromptMsg.human "hi"] ∧
    prompt_sent ((chat envHist gen0 ⟨some "u", some "c", none, some "hi"⟩ emptyState).2.2) =
      some (build_prompt [⟨"assistant", "hello"⟩] [⟨"um-0", "user", "hi", "ts-0"⟩]) ∧
    List.filter isDerivedFact [(⟨"assistant", "hello"⟩ : ZepMsg)] = [] ∧
    build_prompt_claim [⟨"assistant", "hello"⟩] [⟨"um-0", "user", "hi", "ts-0"⟩] =
      [PromptMsg.human "hi"] ∧
    build_prompt [⟨"assistant", "hello"⟩] [⟨"um-0", "user", "hi", "ts-0"⟩] ≠
      build_prompt_claim [⟨"assistant", "hello"⟩] [⟨"um-0", "user", "hi", "ts-0"⟩] := by
  decide

/-- C7, amended: the prompt sent to the LLM is one system message
concatenating the text of every context entry whose role hint is not
user — external assistant-history entries included, not only derived
facts — present exactly when that concatenation has non-whitespace
content, followed by every local message translated (user to human
turn, anything else to AI turn) in original order; the first external
call of the generation stage is the LLM invocation with exactly this
prompt. -/
theorem c7_prompt_construction :
    (∀ fh lm, build_prompt fh lm =
      (if pyStrip (String.intercalate "\n"
            ((fh.filter (fun m => m.role_type != "user")).map (fun m => m.content))) != "" then
        [PromptMsg.system ("Relevant facts:\n" ++ String.intercalate "\n"
          ((fh.filter (fun m => m.role_type != "user")).map (fun m => m.content)))]
      else []) ++ lm.map (fun m => role_to_prompt m.role m.content)) ∧
    (∀ env gen s2 st, ((generate_response env gen s2 st).2.2).head? =
      some (ExtCall.llmInvoke (build_prompt s2.found_history s2.base.messages))) := by
  constructor
  · intro fh lm
    simp only [build_prompt]
    rw [prompt_facts_sources]
  · intro env gen s2 st
    simp only [generate_response]
    cases h : env.llmInvoke (build_prompt s2.found_history s2.base.messages) <;> simp [h]

/-- C8, witness: the stage applied to an unbound conversation returns
empty context without failing and without external calls. -/
theorem c8_witness :
    search_zep_history envOk ⟨"u", "c", "", [⟨"m0", "user", "hi", "t0"⟩]⟩ emptyState =
      (Except.ok ⟨⟨"u", "c", "", [⟨"m0", "user", "hi", "t0"⟩]⟩, []⟩, []) :=
  (c8_context_stage envOk ⟨"u", "c", "", [⟨"m0", "user", "hi", "t0"⟩]⟩ emptyState
    (by decide)).1 (by decide)

/-! Claim C2. -/

/-- C2: every successful chat request appends exactly one user-role
message followed by exactly one assistant-role message (the returned
one) to the local transcript of the returned conversation id, keeping
every prior entry of that list in place and in order, and leaves the
transcripts of all other conversations untouched. -/
theorem c2_transcript_append (env : ZepEnv) (gen : Gen) (payload : ChatRequest)
    (st : LocalState) (r : ChatResult)
    (h : ((chat env gen payload st).1).result = some r) :
    r.message.role = "assistant" ∧
    alookup ((chat env gen payload st).2.1).messages_db r.conversationId =
      some ((alookup st.messages_db r.conversationId).getD []
        ++ [⟨gen.userMessageId, "user", payload.message.getD "", gen.userTimestamp⟩,
            r.message]) ∧
    (∀ k, k ≠ r.conversationId →
      alookup ((chat env gen payload st).2.1).messages_db k =
        alookup st.messages_db k) := by
  by_cases hm : payload.message.getD "" = ""
  · exfalso
    have hrp := run_pipeline_empty env gen
      { payload with groupName := some (payload.groupName.getD "") } st hm
    simp only [chat] at h
    rw [hrp] at h
    simp at h
  · simp only [chat] at h ⊢
    generalize hgen : run_pipeline env gen
      { payload with groupName := some (payload.groupName.getD "") } st = out
    rw [hgen] at h
    obtain ⟨res, st', tr⟩ := out
    cases res with
    | error e => simp at h
    | ok r' =>
      simp only [Option.some.injEq] at h
      obtain rfl := h
      obtain ⟨s1, st1, t1, s2, t2, t3, hh, hsearch, hgenr⟩ :=
        run_pipeline_ok_inv env gen _ st r' st' tr hgen
      obtain ⟨hs1, hst1⟩ := handle_ok_inv env gen _ st s1 st1 t1 hh
      have hbase := search_ok_inv env s1 st1 s2 t2 hsearch
      obtain ⟨content, hllm, hr, hst2⟩ := generate_ok_inv env gen s2 st1 r' st' t3 hgenr
      dsimp only at hs1
      rw [hbase, hs1] at hr
      rw [hst1, handle_core_state] at hst2
      dsimp only at hst2
      rw [hbase, hs1] at hst2
      dsimp only at hst2
      refine ⟨by rw [hr], ?_, ?_⟩
      · rw [hr]
        dsimp only
        rw [hst2]
        dsimp only
        rw [alookup_ainsert_self]
        simp
      · intro k hk
        rw [hr] at hk
        dsimp only at hk
        rw [hst2]
        dsimp only
        rw [alookup_ainsert_ne _ _ _ _ (fun hx => hk hx.symm),
          alookup_ainsert_ne _ _ _ _ (fun hx => hk hx.symm)]

/-- C2, witness: the theorem applied to a concrete successful request
over the empty store; the transcript of conversation c afterwards is
exactly the user turn followed by the assistant turn. -/
theorem c2_witness :
    alookup ((chat envOk gen0 ⟨some "u", some "c", none, some "hi"⟩ emptyState).2.1).messages_db "c" =
      some [⟨"um-0", "user", "hi", "ts-0"⟩, ⟨"am-0", "assistant", "reply", "ts-1"⟩] := by
  have h := c2_transcript_append envOk gen0 ⟨some "u", some "c", none, some "hi"⟩
    emptyState ⟨"c", ⟨"am-0", "assistant", "reply", "ts-1"⟩⟩ (by decide)
  exact h.2.1

/-! Claim C9. -/

/-- C9: for a chat request with a non-empty message (and a non-empty
generated fresh id, as uuid4 guarantees), whatever the outcomes of all
external memory-service calls: if the LLM invocation succeeds the
request answers 200 with an assistant message, and any surfaced error
text is the error of an LLM invocation — memory-service failures are
never fatal. -/
theorem c9_degraded_availability (env : ZepEnv) (gen : Gen) (payload : ChatRequest)
    (st : LocalState) (hm : payload.message.getD "" ≠ "")
    (hg : gen.freshConversationId ≠ "") :
    ((∀ p, ∃ c, env.llmInvoke p = Except.ok c) →
      (chat env gen payload st).1.status = 200 ∧
      ((chat env gen payload st).1.result).map (fun x => x.message.role) =
        some "assistant") ∧
    (∀ e, (chat env gen payload st).1.error = some e →
      ∃ p, env.llmInvoke p = Except.error e) := by
  simp only [chat]
  generalize hgen : run_pipeline env gen
    { payload with groupName := some (payload.groupName.getD "") } st = out
  obtain ⟨res, st', tr⟩ := out
  have hmne : ({ payload with groupName := some (payload.groupName.getD "") } :
      ChatRequest).message.getD "" ≠ "" := hm
  constructor
  · intro hllm
    cases res with
    | error e =>
      exfalso
      rcases run_pipeline_err_inv env gen _ st e st' tr hgen with
        ⟨t1, herr⟩ | ⟨s1, st1, t1, t2, hh, hserr, -⟩ |
        ⟨s1, st1, t1, s2, t2, t3, hh, hsok, hgerr⟩
      · exact hmne (handle_err_inv env gen _ st e st' t1 herr).1
      · have hcid := search_err_inv env s1 st1 e t2 hserr
        obtain ⟨hs1, -⟩ := handle_ok_inv env gen _ st s1 st1 t1 hh
        rw [hs1] at hcid
        dsimp only at hcid
        exact pyOr_ne_empty _ _ hg hcid
      · obtain ⟨c0, hc0⟩ := hllm (build_prompt s2.found_history s2.base.messages)
        rw [(generate_err_inv env gen s2 st1 e st' t3 hgerr).1] at hc0
        cases hc0
    | ok r =>
      obtain ⟨s1, st1, t1, s2, t2, t3, hh, hsearch, hgenr⟩ :=
        run_pipeline_ok_inv env gen _ st r st' tr hgen
      obtain ⟨c0, hllmok, hr, -⟩ := generate_ok_inv env gen s2 st1 r st' t3 hgenr
      refine ⟨rfl, ?_⟩
      rw [hr]
      rfl
  · intro e he
    cases res with
    | ok r => simp at he
    | error e' =>
      simp at he
      rcases run_pipeline_err_inv env gen _ st e' st' tr hgen with
        ⟨t1, herr⟩ | ⟨s1, st1, t1, t2, hh, hserr, -⟩ |
        ⟨s1, st1, t1, s2, t2, t3, hh, hsok, hgerr⟩
      · exact absurd (handle_err_inv env gen _ st e' st' t1 herr).1 hmne
      · exfalso
        have hcid := search_err_inv env s1 st1 e' t2 hserr
        obtain ⟨hs1, -⟩ := handle_ok_inv env gen _ st s1 st1 t1 hh
        rw [hs1] at hcid
        dsimp only at hcid
        exact pyOr_ne_empty _ _ hg hcid
      · exact ⟨build_prompt s2.found_history s2.base.messages,
          he ▸ (generate_err_inv env gen s2 st1 e' st' t3 hgerr).1⟩

/-- C9, witness: the theorem applied at a concrete request in an
environment whose LLM always answers. -/
theorem c9_witness :
    (chat envOk gen0 ⟨none, none, none, some "hi"⟩ emptyState).1.status = 200 ∧
    ((chat envOk gen0 ⟨none, none, none, some "hi"⟩ emptyState).1.result).map
      (fun x => x.message.role) = some "assistant" :=
  (c9_degraded_availability envOk gen0 ⟨none, none, none, some "hi"⟩ emptyState
    (by decide) (by decide)).1 (fun _ => ⟨"reply", rfl⟩)

/-! Claim C4. -/

/-- C4, counterexample: when user creation fails with an unrelated
error, the pipeline still ingests the message locally (two entries
afterwards) while no binding exists for the conversation, so the
stated equivalence fails in the direction from ingested message to
binding. -/
theorem c4_counterexample :
    alookup ((chat envUserDown gen0 ⟨some "u", some "c", none, some "hi"⟩ emptyState).2.1).conversation_metadata "c" =
      none ∧
    alookup ((chat envUserDown gen0 ⟨some "u", some "c", none, some "hi"⟩ emptyState).2.1).messages_db "c" =
      some [⟨"um-0", "user", "hi", "ts-0"⟩, ⟨"am-0", "assistant", "reply", "ts-1"⟩] := by
  decide

/-- C4, amended: only one direction of the invariant holds: after any
pipeline invocation from a state satisfying it, every conversation
with a binding has at least one ingested message; the converse can
fail, since a non-benign binding-creation failure leaves an ingested
message with no binding. -/
theorem c4_binding_invariant (env : ZepEnv) (gen : Gen) (payload : ChatRequest)
    (st : LocalState) (hinv : bindingInv st) :
    bindingInv ((chat env gen payload st).2.1) := by
  simp only [chat]
  generalize hgen : run_pipeline env gen
    { payload with groupName := some (payload.groupName.getD "") } st = out
  obtain ⟨res, st', tr⟩ := out
  suffices hs : bindingInv st' by cases res <;> exact hs
  cases res with
  | ok r =>
    obtain ⟨s1, st1, t1, s2, t2, t3, hh, hsearch, hgenr⟩ :=
      run_pipeline_ok_inv env gen _ st r st' tr hgen
    obtain ⟨-, hst1⟩ := handle_ok_inv env gen _ st s1 st1 t1 hh
    have hinv1 : bindingInv st1 := by
      rw [hst1]
      exact handle_core_inv env gen _ _ _ _ st hinv
    have hfin := generate_state_inv env gen s2 st1 hinv1
    have hst' : (generate_response env gen s2 st1).2.1 = st' := by rw [hgenr]
    rw [hst'] at hfin
    exact hfin
  | error e =>
    rcases run_pipeline_err_inv env gen _ st e st' tr hgen with
      ⟨t1, herr⟩ | ⟨s1, st1, t1, t2, hh, -, hst'⟩ |
      ⟨s1, st1, t1, s2, t2, t3, hh, hsok, hgerr⟩
    · rw [(handle_err_inv env gen _ st e st' t1 herr).2.1]
      exact hinv
    · obtain ⟨-, hst1⟩ := handle_ok_inv env gen _ st s1 st1 t1 hh
      rw [hst', hst1]
      exact handle_core_inv env gen _ _ _ _ st hinv
    · obtain ⟨-, hst1⟩ := handle_ok_inv env gen _ st s1 st1 t1 hh
      have hinv1 : bindingInv st1 := by
        rw [hst1]
        exact handle_core_inv env gen _ _ _ _ st hinv
      have hfin := generate_state_inv env gen s2 st1 hinv1
      have hst' : (generate_response env gen s2 st1).2.1 = st' := by rw [hgerr]
      rw [hst'] at hfin
      exact hfin

/-- C4, witness: the amended theorem applied to a concrete request over
the empty store, which satisfies the invariant vacuously. -/
theorem c4_witness :
    bindingInv ((chat envOk gen0 ⟨some "u", some "c", none, some "hi"⟩ emptyState).2.1) :=
  c4_binding_invariant envOk gen0 ⟨some "u", some "c", none, some "hi"⟩ emptyState
    (fun k hk => by simp [emptyState, alookup] at hk)

end ZepChat
